import Mathlib

/-!
# Face tracking overlay (src/src/App.js): a shallow embedding

The React component `FaceDetectionApp` is embedded as

* pure geometry: `drawDetections` over exact rationals (JavaScript numbers
  that are not finite, as produced by a division by zero, are `none`);
* a transition system: the component state (`useState` values, the refs, the
  DOM video element), the callbacks that `onPlay` leaves with the host
  scheduler, and one event per handler of the component.

Every render creates a fresh `onPlay`; the values of `isModelLoaded` and
`isVideoPlaying` that this function sees are the ones of its render
(`Closure`).  `setTimeout(() => onPlay(), 100)` and
`requestAnimationFrame(onPlay)` inside `onPlay` refer to that same function,
so a callback keeps the closure of the invocation that scheduled it.
-/

namespace FaceTracking

/-! ## Geometry -/

/-- A JavaScript number under exact arithmetic: `none` is a value that is not
finite (`Infinity`, `-Infinity`, `NaN`). -/
abbrev JsNum := Option ℚ

/-- JavaScript `a / b` for finite operands: a zero divisor gives a value that is
not finite. -/
def jsDiv (a b : ℚ) : JsNum :=
  if b = 0 then none else some (a / b)

/-- JavaScript `a * s` for a finite `a`: the product with a value that is not
finite is not finite. -/
def jsMul (a : ℚ) (s : JsNum) : JsNum :=
  s.map (fun q => a * q)

/-- The `box` of a face-api detection, in video pixels. -/
structure Box where
  x : ℚ
  y : ℚ
  width : ℚ
  height : ℚ
  deriving DecidableEq, Repr

/-- One element of the array `detectAllFaces` resolves to. -/
structure Detection where
  box : Box
  deriving DecidableEq, Repr

/-- The `fabric.Rect` options object built in `drawDetections`. -/
structure Rect where
  left : JsNum
  top : JsNum
  width : JsNum
  height : JsNum
  stroke : String
  strokeWidth : Nat
  fill : String
  deriving DecidableEq, Repr

/-- The fields of the DOM video element that the component reads or causes to
change. -/
structure VideoEl where
  paused : Bool
  ended : Bool
  readyState : Nat
  clientWidth : Nat
  clientHeight : Nat
  videoWidth : Nat
  videoHeight : Nat
  deriving DecidableEq, Repr

/-- The DOM canvas element, `canvasRef.current`. -/
structure CanvasEl where
  width : Nat
  height : Nat
  deriving DecidableEq, Repr

/-- `videoEl.clientWidth / videoEl.videoWidth`. -/
def scaleWidth (videoEl : VideoEl) : JsNum :=
  jsDiv (videoEl.clientWidth : ℚ) (videoEl.videoWidth : ℚ)

/-- `videoEl.clientHeight / videoEl.videoHeight`. -/
def scaleHeight (videoEl : VideoEl) : JsNum :=
  jsDiv (videoEl.clientHeight : ℚ) (videoEl.videoHeight : ℚ)

/-- The `new fabric.Rect({...})` expression of `drawDetections`. -/
def newRect (box : Box) (sw sh : JsNum) : Rect :=
  { left := jsMul box.x sw
    top := jsMul box.y sh
    width := jsMul box.width sw
    height := jsMul box.height sh
    stroke := "red"
    strokeWidth := 2
    fill := "transparent" }

/-- The function `drawDetections`: the objects of `fabricCanvas.current` after the call.
`none` is the `TypeError` thrown when `videoRef.current` or
`fabricCanvas.current` is not set.  `clear()` empties the object list and each
`add(rect)` appends to it. -/
def drawDetections (videoEl : Option VideoEl) (fabricCanvas : Option (List Rect))
    (detections : List Detection) : Option (List Rect) :=
  match videoEl with
  | none => none
  | some v =>
    let sw := scaleWidth v
    let sh := scaleHeight v
    match fabricCanvas with
    | none => none
    | some _ =>
      let cleared : List Rect := []
      some (detections.foldl (fun objects detection =>
        objects ++ [newRect detection.box sw sh]) cleared)

/-! ## Component state and scheduler -/

/-- An extracted face image (the canvas `extractFaces` returns), by identity. -/
abbrev Face := Nat

/-- An object URL made by `URL.createObjectURL`. -/
abbrev Url := Nat

/-- The state values an `onPlay` function sees: those of the render that
created it. -/
structure Closure where
  isModelLoaded : Bool
  isVideoPlaying : Bool
  deriving DecidableEq, Repr

/-- What an `onPlay` invocation has left with the host: a timer or animation
frame callback that will call the same `onPlay` again, or a promise it awaits.
`chain` is a history variable: the number of the loop chain (one `onPlay`
function together with the callbacks it schedules for itself).  `src` of
`detecting` is a history variable too: `videoSrc` when the request was made. -/
inductive Task where
  | timeout (chain : Nat) (c : Closure) (delay : Nat)
  | animationFrame (chain : Nat) (c : Closure)
  | detecting (chain : Nat) (c : Closure) (src : Option Url)
  | extracting (chain : Nat) (c : Closure) (results : List Detection)
  deriving DecidableEq, Repr

/-- The component: its four `useState` values, its three refs, and the
callbacks and promises outstanding.  The last five fields are history
variables, written but never read by the component: `nextChain` numbers the
loop chains, `requests` lists the chain of every `detectAllFaces` call in
order, `playCalls` counts `videoEl.play()` calls, `sizedSrcs` lists the value
of `videoSrc` at every `setCanvasSize` that found both elements, and
`lastSizing` is the `clientWidth`, `clientHeight` the latest of those read. -/
structure State where
  videoSrc : Option Url
  isModelLoaded : Bool
  extractedFaces : List Face
  isVideoPlaying : Bool
  videoRef : Option VideoEl
  canvasRef : Option CanvasEl
  fabricCanvas : Option (List Rect)
  pending : List Task
  nextChain : Nat
  requests : List Nat
  playCalls : Nat
  sizedSrcs : List (Option Url)
  lastSizing : Option (Nat × Nat)
  deriving DecidableEq, Repr

/-- The component once mounted: no source, model not loaded, the video element
paused with no data, canvas of the default size, no fabric canvas yet. -/
def init : State :=
  { videoSrc := none
    isModelLoaded := false
    extractedFaces := []
    isVideoPlaying := false
    videoRef := some { paused := true, ended := false, readyState := 0,
                       clientWidth := 300, clientHeight := 150,
                       videoWidth := 0, videoHeight := 0 }
    canvasRef := some { width := 300, height := 150 }
    fabricCanvas := none
    pending := []
    nextChain := 0
    requests := []
    playCalls := 0
    sizedSrcs := []
    lastSizing := none }

/-- The closure of the `onPlay` created by the current render. -/
def currentClosure (s : State) : Closure :=
  { isModelLoaded := s.isModelLoaded, isVideoPlaying := s.isVideoPlaying }

/-- The condition of the `if` at the head of `onPlay`:
`!videoEl || videoEl.paused || videoEl.ended || !isModelLoaded || videoEl.readyState < 2`. -/
def guardDefers (c : Closure) (videoEl : Option VideoEl) : Bool :=
  match videoEl with
  | none => true
  | some v => v.paused || v.ended || !c.isModelLoaded || decide (v.readyState < 2)

/-- The function `setCanvasSize`. -/
def setCanvasSize (s : State) : State :=
  match s.videoRef, s.canvasRef with
  | some video, some _ =>
    { s with
      canvasRef := some { width := video.clientWidth, height := video.clientHeight }
      fabricCanvas := some []
      sizedSrcs := s.videoSrc :: s.sizedSrcs
      lastSizing := some (video.clientWidth, video.clientHeight) }
  | _, _ => s

/-- The function `onPlay` up to its first suspension: either the retry timer, or
the call of `faceapi.detectAllFaces(videoEl, options)`, whose promise it awaits. -/
def onPlay (chain : Nat) (c : Closure) (s : State) : State :=
  if guardDefers c s.videoRef then
    { s with pending := s.pending ++ [Task.timeout chain c 100] }
  else
    { s with
      pending := s.pending ++ [Task.detecting chain c s.videoSrc]
      requests := s.requests ++ [chain] }

/-- The function `onPlay` resumed with the detection results: `drawDetections(results)`,
then the call of `faceapi.extractFaces(videoEl, results)`.  When
`drawDetections` throws, the promise of `onPlay` rejects and nothing more of
it runs. -/
def onDetected (chain : Nat) (c : Closure) (results : List Detection) (s : State) : State :=
  match drawDetections s.videoRef s.fabricCanvas results with
  | none => s
  | some objects =>
    { s with
      fabricCanvas := some objects
      pending := s.pending ++ [Task.extracting chain c results] }

/-- The function `onPlay` resumed with the face images: `setExtractedFaces(faceImages)`,
then `if (isVideoPlaying) requestAnimationFrame(onPlay)`. -/
def onExtracted (chain : Nat) (c : Closure) (faceImages : List Face) (s : State) : State :=
  let s1 := { s with extractedFaces := faceImages }
  if c.isVideoPlaying then
    { s1 with pending := s1.pending ++ [Task.animationFrame chain c] }
  else s1

/-- The effect with dependencies `[videoSrc, isVideoPlaying]`, run after a render
in which one of them changed: it starts a new chain with the `onPlay` of that
render. -/
def playbackEffect (s : State) : State :=
  if s.videoSrc.isSome && s.isVideoPlaying then
    { s with
      pending := s.pending ++ [Task.animationFrame s.nextChain (currentClosure s)]
      nextChain := s.nextChain + 1 }
  else s

/-- The video element when its `src` attribute changes (the media element load
algorithm): no data, no intrinsic size, and paused if a resource was selected
before. -/
def loadSrc (hadSrc : Bool) (v : VideoEl) : VideoEl :=
  { v with paused := hadSrc || v.paused, ended := false, readyState := 0,
           videoWidth := 0, videoHeight := 0 }

/-- The function `handleVideoUpload` and the render that follows `setVideoSrc(url)`.
Setting the state to the value it has changes nothing. -/
def handleVideoUpload (url : Url) (s : State) : State :=
  if s.videoSrc = some url then s
  else
    playbackEffect
      { s with
        videoSrc := some url
        videoRef := s.videoRef.map (loadSrc s.videoSrc.isSome) }

/-- The function `handlePlay` and the render that follows `setIsVideoPlaying(true)`;
`videoEl.play()` clears `paused`. -/
def handlePlay (s : State) : State :=
  match s.videoRef with
  | none => s
  | some v =>
    let s1 := { s with
      videoRef := some { v with paused := false }
      playCalls := s.playCalls + 1
      isVideoPlaying := true }
    if s.isVideoPlaying then s1 else playbackEffect s1

/-- The function `handlePause` and the render that follows `setIsVideoPlaying(false)`;
`videoEl.pause()` sets `paused`. -/
def handlePause (s : State) : State :=
  match s.videoRef with
  | none => s
  | some v =>
    let s1 := { s with
      videoRef := some { v with paused := true }
      isVideoPlaying := false }
    if s.isVideoPlaying then playbackEffect s1 else s1

/-- What can happen to the mounted component.

* `modelsLoaded`: the promise of `loadFromUri` resolves, `setIsModelLoaded(true)`.
* `upload`, `playClick`, `pauseClick`: the three controls.
* `loadedMetadata`: the element leaves `readyState` 0 with the intrinsic and
  laid out sizes given, and the `loadedmetadata` event is dispatched: the
  `onLoadedMetadata` prop (the `onPlay` of the current render), then the
  `setCanvasSize` listener.
* `mediaProgress`: the element, metadata known, reports another `readyState`
  or `ended`, and may pause itself (as it does at the end of the resource); it
  never resumes by itself.
* `resize`: the window `resize` event, after layout gave the element the size.
* `callback i`: the host runs the timer or animation frame callback `i`.
* `detected i`, `extracted i`: the awaited promise `i` resolves with the value. -/
inductive Event where
  | modelsLoaded
  | upload (url : Url)
  | playClick
  | pauseClick
  | loadedMetadata (videoWidth videoHeight clientWidth clientHeight : Nat)
  | mediaProgress (readyState : Nat) (ended : Bool) (pause : Bool)
  | resize (clientWidth clientHeight : Nat)
  | callback (i : Nat)
  | detected (i : Nat) (results : List Detection)
  | extracted (i : Nat) (faceImages : List Face)
  deriving DecidableEq, Repr

/-- One event. An event that cannot happen in the state leaves it as it is. -/
def step (s : State) : Event → State
  | .modelsLoaded => { s with isModelLoaded := true }
  | .upload url => handleVideoUpload url s
  | .playClick => handlePlay s
  | .pauseClick => handlePause s
  | .loadedMetadata vw vh cw ch =>
    match s.videoSrc, s.videoRef with
    | some _, some v =>
      if v.readyState = 0 then
        let s1 := { s with
          videoRef := some { v with readyState := 1, videoWidth := vw, videoHeight := vh,
                                    clientWidth := cw, clientHeight := ch }
          nextChain := s.nextChain + 1 }
        setCanvasSize (onPlay s.nextChain (currentClosure s) s1)
      else s
    | _, _ => s
  | .mediaProgress rs ended pause =>
    match s.videoRef with
    | some v =>
      if 1 ≤ v.readyState ∧ 1 ≤ rs then
        { s with videoRef := some { v with readyState := rs, ended := ended,
                                           paused := v.paused || pause } }
      else s
    | none => s
  | .resize cw ch =>
    setCanvasSize
      { s with videoRef := s.videoRef.map
                 (fun v => { v with clientWidth := cw, clientHeight := ch }) }
  | .callback i =>
    match s.pending[i]? with
    | some (Task.timeout chain c _) => onPlay chain c { s with pending := s.pending.eraseIdx i }
    | some (Task.animationFrame chain c) =>
      onPlay chain c { s with pending := s.pending.eraseIdx i }
    | _ => s
  | .detected i results =>
    match s.pending[i]? with
    | some (Task.detecting chain c _) =>
      onDetected chain c results { s with pending := s.pending.eraseIdx i }
    | _ => s
  | .extracted i faceImages =>
    match s.pending[i]? with
    | some (Task.extracting chain c _) =>
      onExtracted chain c faceImages { s with pending := s.pending.eraseIdx i }
    | _ => s

/-- The state after a sequence of events from the mounted component. -/
def run (events : List Event) : State :=
  events.foldl step init

/-! ## Invariants and scenario states -/

open Event

/-- The element plays only in the playback state Playing: a video element that is not
paused comes with `isVideoPlaying` true. -/
def PlayingWhenUnpaused (s : State) : Prop :=
  ∀ v, s.videoRef = some v → v.paused = false → s.isVideoPlaying = true

/-- The canvas is sized before the element has data: the canvas element is mounted;
once the element has metadata, `setCanvasSize` has run for the current `videoSrc`;
every detection awaited was requested for a `videoSrc` for which it has run; and
once it has run, `fabricCanvas.current` is set and the canvas has the size that
the latest run read. -/
def Sized (s : State) : Prop :=
  s.canvasRef.isSome = true
  ∧ (∀ v, s.videoRef = some v → 1 ≤ v.readyState → s.videoSrc ∈ s.sizedSrcs)
  ∧ (∀ chain c src, Task.detecting chain c src ∈ s.pending → src ∈ s.sizedSrcs)
  ∧ (s.sizedSrcs ≠ [] → s.fabricCanvas.isSome = true ∧
      ∃ w h, s.lastSizing = some (w, h) ∧ s.canvasRef = some { width := w, height := h })

/-- The intrinsic size is known and nonzero once the element has metadata. -/
def MetadataNonzero (s : State) : Prop :=
  ∀ v, s.videoRef = some v → 1 ≤ v.readyState → v.videoWidth ≠ 0 ∧ v.videoHeight ≠ 0

/-- The state of the scenario of C6 once the model has loaded, up to the order of the
two retry timers. -/
def staleRetries (swapped : Bool) : State :=
  { run [upload 1, loadedMetadata 640 360 320 180, mediaProgress 4 false false, playClick,
      callback 1, modelsLoaded] with
    pending :=
      if swapped then
        [Task.timeout 1 { isModelLoaded := false, isVideoPlaying := true } 100,
         Task.timeout 0 { isModelLoaded := false, isVideoPlaying := false } 100]
      else
        [Task.timeout 0 { isModelLoaded := false, isVideoPlaying := false } 100,
         Task.timeout 1 { isModelLoaded := false, isVideoPlaying := true } 100] }

/-! ## Geometry: theorems -/

theorem foldl_add_eq_append_map {α β : Type} (f : α → β) (ds : List α) (acc : List β) :
    ds.foldl (fun objects d => objects ++ [f d]) acc = acc ++ ds.map f := by
  induction ds generalizing acc with
  | nil => simp
  | cons d ds ih => simp [List.foldl_cons, ih]

theorem drawDetections_eq_map (v : VideoEl) (prior : List Rect) (ds : List Detection) :
    drawDetections (some v) (some prior) ds
      = some (ds.map (fun d => newRect d.box (scaleWidth v) (scaleHeight v))) := by
  simp [drawDetections, foldl_add_eq_append_map (fun d : Detection => newRect d.box (scaleWidth v) (scaleHeight v))]

/-- C2. Whatever the overlay held before, after `drawDetections(ds)` it holds exactly
one rectangle per element of `ds`, in the order of `ds`, each the mapped box of
that detection: red stroke of width 2, transparent fill, `left` and `width` the
`x` and `width` of the box times `clientWidth / videoWidth`, `top` and `height`
the `y` and `height` of the box times `clientHeight / videoHeight` (not finite when
the intrinsic dimension is 0).  So it holds as many shapes as there are
detections, none of an earlier call, and `drawDetections([])` leaves it with no
shape. -/
theorem drawDetections_replaces_overlay (v : VideoEl) (prior : List Rect) (ds : List Detection) :
    drawDetections (some v) (some prior) ds
        = some (ds.map (fun d =>
            { left := if v.videoWidth = 0 then none
                else some (d.box.x * ((v.clientWidth : ℚ) / (v.videoWidth : ℚ)))
              top := if v.videoHeight = 0 then none
                else some (d.box.y * ((v.clientHeight : ℚ) / (v.videoHeight : ℚ)))
              width := if v.videoWidth = 0 then none
                else some (d.box.width * ((v.clientWidth : ℚ) / (v.videoWidth : ℚ)))
              height := if v.videoHeight = 0 then none
                else some (d.box.height * ((v.clientHeight : ℚ) / (v.videoHeight : ℚ)))
              stroke := "red"
              strokeWidth := 2
              fill := "transparent" }))
      ∧ (∀ objects, drawDetections (some v) (some prior) ds = some objects →
          objects.length = ds.length)
      ∧ drawDetections (some v) (some prior) [] = some [] := by
  refine ⟨?_, ?_, ?_⟩
  · rw [drawDetections_eq_map]
    by_cases hw : v.videoWidth = 0 <;> by_cases hh : v.videoHeight = 0 <;>
      simp [newRect, scaleWidth, scaleHeight, jsDiv, jsMul, hw, hh]
  · intro objects h
    rw [drawDetections_eq_map] at h
    cases h
    simp
  · rw [drawDetections_eq_map]; rfl

/-- C1. With positive scale factors `sx = clientWidth / videoWidth` and
`sy = clientHeight / videoHeight`, the rectangle that `drawDetections` creates for
the detection at position `i`, with box `b`, has `left = b.x * sx`,
`top = b.y * sy`, `width = b.width * sx` and `height = b.height * sy`. -/
theorem drawDetections_scales_box (v : VideoEl) (prior : List Rect) (ds : List Detection)
    (i : Nat) (d : Detection) (hd : ds[i]? = some d)
    (hsx : 0 < (v.clientWidth : ℚ) / (v.videoWidth : ℚ))
    (hsy : 0 < (v.clientHeight : ℚ) / (v.videoHeight : ℚ)) :
    ∃ objects, drawDetections (some v) (some prior) ds = some objects ∧
      objects[i]? = some
        { left := some (d.box.x * ((v.clientWidth : ℚ) / (v.videoWidth : ℚ)))
          top := some (d.box.y * ((v.clientHeight : ℚ) / (v.videoHeight : ℚ)))
          width := some (d.box.width * ((v.clientWidth : ℚ) / (v.videoWidth : ℚ)))
          height := some (d.box.height * ((v.clientHeight : ℚ) / (v.videoHeight : ℚ)))
          stroke := "red"
          strokeWidth := 2
          fill := "transparent" } := by
  have hw : (v.videoWidth : ℚ) ≠ 0 := by
    intro h; rw [h, div_zero] at hsx; exact lt_irrefl _ hsx
  have hh : (v.videoHeight : ℚ) ≠ 0 := by
    intro h; rw [h, div_zero] at hsy; exact lt_irrefl _ hsy
  refine ⟨_, drawDetections_eq_map v prior ds, ?_⟩
  simp [List.getElem?_map, hd, newRect, scaleWidth, scaleHeight, jsDiv, jsMul, hw, hh]

/-- The scenario of C1: a 640x360 video shown at 320x180 maps the box
`{x: 100, y: 50, width: 40, height: 40}` to `{left: 50, top: 25, width: 20, height: 20}`. -/
theorem drawDetections_scales_box_witness :
    ∃ objects,
      drawDetections
          (some { paused := false, ended := false, readyState := 4, clientWidth := 320,
                  clientHeight := 180, videoWidth := 640, videoHeight := 360 })
          (some []) [{ box := { x := 100, y := 50, width := 40, height := 40 } }] = some objects ∧
      objects[0]? = some
        { left := some 50, top := some 25, width := some 20, height := some 20,
          stroke := "red", strokeWidth := 2, fill := "transparent" } := by
  have h := drawDetections_scales_box
    { paused := false, ended := false, readyState := 4, clientWidth := 320,
      clientHeight := 180, videoWidth := 640, videoHeight := 360 }
    [] [{ box := { x := 100, y := 50, width := 40, height := 40 } }] 0
    { box := { x := 100, y := 50, width := 40, height := 40 } } rfl
    (by norm_num) (by norm_num)
  norm_num at h
  obtain ⟨objects, h1, h2⟩ := h
  exact ⟨objects, h1, h2⟩

/-! ## The handlers: theorems -/

theorem guardDefers_eq_true_iff (c : Closure) (videoEl : Option VideoEl) :
    guardDefers c videoEl = true ↔
      (videoEl = none ∨
        (∃ v, videoEl = some v ∧ (v.paused = true ∨ v.ended = true ∨ v.readyState < 2)) ∨
        c.isModelLoaded = false) := by
  cases videoEl with
  | none => simp [guardDefers]
  | some v =>
    simp only [guardDefers, Bool.or_eq_true, Bool.not_eq_true', decide_eq_true_eq]
    constructor
    · rintro (((h | h) | h) | h)
      · exact Or.inr (Or.inl ⟨v, rfl, Or.inl h⟩)
      · exact Or.inr (Or.inl ⟨v, rfl, Or.inr (Or.inl h)⟩)
      · exact Or.inr (Or.inr h)
      · exact Or.inr (Or.inl ⟨v, rfl, Or.inr (Or.inr h)⟩)
    · rintro (h | ⟨w, hw, h | h | h⟩ | h)
      · cases h
      · cases hw; exact Or.inl (Or.inl (Or.inl h))
      · cases hw; exact Or.inl (Or.inl (Or.inr h))
      · cases hw; exact Or.inr h
      · exact Or.inl (Or.inr h)

/-- C5. One invocation of `onPlay` issues no detection request and schedules exactly
one retry of itself, 100 ms later, if and only if the video element is absent, or
paused, or ended, or its `readyState` is below 2, or the model-loaded flag that
`onPlay` sees is false; and it issues exactly one detection request for the video
element, scheduling no retry timer, if and only if none of these holds.  In both
cases nothing else of the state changes. -/
theorem onPlay_defers_iff (s : State) (chain : Nat) (c : Closure) :
    (onPlay chain c s = { s with pending := s.pending ++ [Task.timeout chain c 100] } ↔
      (s.videoRef = none ∨
        (∃ v, s.videoRef = some v ∧ (v.paused = true ∨ v.ended = true ∨ v.readyState < 2)) ∨
        c.isModelLoaded = false))
    ∧ (onPlay chain c s =
          { s with
            pending := s.pending ++ [Task.detecting chain c s.videoSrc]
            requests := s.requests ++ [chain] } ↔
        ¬ (s.videoRef = none ∨
            (∃ v, s.videoRef = some v ∧ (v.paused = true ∨ v.ended = true ∨ v.readyState < 2)) ∨
            c.isModelLoaded = false)) := by
  rw [← guardDefers_eq_true_iff]
  cases h : guardDefers c s.videoRef with
  | true =>
    have h1 : onPlay chain c s = { s with pending := s.pending ++ [Task.timeout chain c 100] } := by
      simp [onPlay, h]
    refine ⟨⟨fun _ => rfl, fun _ => h1⟩, ⟨fun he => ?_, fun hn => absurd rfl hn⟩⟩
    have hp := congrArg State.pending (h1.symm.trans he)
    simp at hp
  | false =>
    have h1 : onPlay chain c s =
        { s with
          pending := s.pending ++ [Task.detecting chain c s.videoSrc]
          requests := s.requests ++ [chain] } := by
      simp [onPlay, h]
    refine ⟨⟨fun he => ?_, fun hn => by cases hn⟩, ⟨fun _ => by simp, fun _ => h1⟩⟩
    have hp := congrArg State.pending (h1.symm.trans he)
    simp at hp

/-- C9, amended. Without the video element `handlePlay` changes nothing.  With no video
loaded (`videoSrc` null) and the element mounted it calls `videoEl.play()` once and
sets `isVideoPlaying`, changes no other field and starts no detection loop. -/
theorem handlePlay_without_source (s : State) :
    (s.videoRef = none → handlePlay s = s)
    ∧ (∀ v, s.videoSrc = none → s.videoRef = some v →
        handlePlay s =
          { s with
            videoRef := some { v with paused := false }
            playCalls := s.playCalls + 1
            isVideoPlaying := true }) := by
  constructor
  · intro h
    simp [handlePlay, h]
  · intro v hsrc hv
    simp only [handlePlay, hv, playbackEffect, hsrc]
    split <;> simp

/-- The amended C9 at the mounted component: no source, element present. -/
theorem handlePlay_without_source_witness :
    handlePlay init =
      { init with
        videoRef := some { paused := false, ended := false, readyState := 0,
                           clientWidth := 300, clientHeight := 150,
                           videoWidth := 0, videoHeight := 0 }
        playCalls := 1
        isVideoPlaying := true } :=
  (handlePlay_without_source init).2 _ rfl rfl

/-- C9 as stated fails: on the mounted component, which has no video loaded,
`handlePlay` calls `play()` and turns `isVideoPlaying` from false to true. -/
theorem handlePlay_not_noop_without_source :
    init.videoSrc = none ∧ handlePlay init ≠ init ∧
      (handlePlay init).isVideoPlaying = true ∧ init.isVideoPlaying = false ∧
      (handlePlay init).playCalls = init.playCalls + 1 := by
  decide

/-- C7 as stated fails: a cycle that extracts one face from a gallery of two leaves a
gallery of one, not of three. -/
theorem gallery_not_appended :
    (onExtracted 0 { isModelLoaded := true, isVideoPlaying := true } [3]
        { init with extractedFaces := [1, 2] }).extractedFaces = [3]
    ∧ (onExtracted 0 { isModelLoaded := true, isVideoPlaying := true } [3]
        { init with extractedFaces := [1, 2] }).extractedFaces ≠ [1, 2] ++ [3]
    ∧ (onExtracted 0 { isModelLoaded := true, isVideoPlaying := true } [3]
        { init with extractedFaces := [1, 2] }).extractedFaces.length < [1, 2].length := by
  decide

theorem onExtracted_extractedFaces (chain : Nat) (c : Closure) (faceImages : List Face)
    (s : State) : (onExtracted chain c faceImages s).extractedFaces = faceImages := by
  unfold onExtracted
  split <;> rfl

/-- C7, amended. After every completed detection cycle the gallery is exactly the face
images of that cycle: after any sequence of cycles it is the images of the last
one, whatever it held before. -/
theorem gallery_is_last_cycle (s : State) (cycles : List (Nat × Closure × List Face))
    (chain : Nat) (c : Closure) (faceImages : List Face) :
    ((cycles ++ [(chain, c, faceImages)]).foldl
        (fun st cycle => onExtracted cycle.1 cycle.2.1 cycle.2.2 st) s).extractedFaces
      = faceImages := by
  rw [List.foldl_append]
  simp [onExtracted_extractedFaces]

/-! ## Frame lemmas -/

@[simp]
theorem onPlay_videoSrc (chain : Nat) (c : Closure) (s : State) :
    (onPlay chain c s).videoSrc = s.videoSrc := by
  unfold onPlay
  split <;> rfl

@[simp]
theorem onPlay_isModelLoaded (chain : Nat) (c : Closure) (s : State) :
    (onPlay chain c s).isModelLoaded = s.isModelLoaded := by
  unfold onPlay
  split <;> rfl

@[simp]
theorem onPlay_extractedFaces (chain : Nat) (c : Closure) (s : State) :
    (onPlay chain c s).extractedFaces = s.extractedFaces := by
  unfold onPlay
  split <;> rfl

@[simp]
theorem onPlay_isVideoPlaying (chain : Nat) (c : Closure) (s : State) :
    (onPlay chain c s).isVideoPlaying = s.isVideoPlaying := by
  unfold onPlay
  split <;> rfl

@[simp]
theorem onPlay_videoRef (chain : Nat) (c : Closure) (s : State) :
    (onPlay chain c s).videoRef = s.videoRef := by
  unfold onPlay
  split <;> rfl

@[simp]
theorem onPlay_canvasRef (chain : Nat) (c : Closure) (s : State) :
    (onPlay chain c s).canvasRef = s.canvasRef := by
  unfold onPlay
  split <;> rfl

@[simp]
theorem onPlay_fabricCanvas (chain : Nat) (c : Closure) (s : State) :
    (onPlay chain c s).fabricCanvas = s.fabricCanvas := by
  unfold onPlay
  split <;> rfl

@[simp]
theorem onPlay_nextChain (chain : Nat) (c : Closure) (s : State) :
    (onPlay chain c s).nextChain = s.nextChain := by
  unfold onPlay
  split <;> rfl

@[simp]
theorem onPlay_playCalls (chain : Nat) (c : Closure) (s : State) :
    (onPlay chain c s).playCalls = s.playCalls := by
  unfold onPlay
  split <;> rfl

@[simp]
theorem onPlay_sizedSrcs (chain : Nat) (c : Closure) (s : State) :
    (onPlay chain c s).sizedSrcs = s.sizedSrcs := by
  unfold onPlay
  split <;> rfl

@[simp]
theorem onPlay_lastSizing (chain : Nat) (c : Closure) (s : State) :
    (onPlay chain c s).lastSizing = s.lastSizing := by
  unfold onPlay
  split <;> rfl

@[simp]
theorem onDetected_videoSrc (chain : Nat) (c : Closure) (results : List Detection) (s : State) :
    (onDetected chain c results s).videoSrc = s.videoSrc := by
  unfold onDetected
  split <;> rfl

@[simp]
theorem onDetected_isModelLoaded (chain : Nat) (c : Closure) (results : List Detection) (s : State) :
    (onDetected chain c results s).isModelLoaded = s.isModelLoaded := by
  unfold onDetected
  split <;> rfl

@[simp]
theorem onDetected_extractedFaces (chain : Nat) (c : Closure) (results : List Detection) (s : State) :
    (onDetected chain c results s).extractedFaces = s.extractedFaces := by
  unfold onDetected
  split <;> rfl

@[simp]
theorem onDetected_isVideoPlaying (chain : Nat) (c : Closure) (results : List Detection) (s : State) :
    (onDetected chain c results s).isVideoPlaying = s.isVideoPlaying := by
  unfold onDetected
  split <;> rfl

@[simp]
theorem onDetected_videoRef (chain : Nat) (c : Closure) (results : List Detection) (s : State) :
    (onDetected chain c results s).videoRef = s.videoRef := by
  unfold onDetected
  split <;> rfl

@[simp]
theorem onDetected_canvasRef (chain : Nat) (c : Closure) (results : List Detection) (s : State) :
    (onDetected chain c results s).canvasRef = s.canvasRef := by
  unfold onDetected
  split <;> rfl

@[simp]
theorem onDetected_nextChain (chain : Nat) (c : Closure) (results : List Detection) (s : State) :
    (onDetected chain c results s).nextChain = s.nextChain := by
  unfold onDetected
  split <;> rfl

@[simp]
theorem onDetected_requests (chain : Nat) (c : Closure) (results : List Detection) (s : State) :
    (onDetected chain c results s).requests = s.requests := by
  unfold onDetected
  split <;> rfl

@[simp]
theorem onDetected_playCalls (chain : Nat) (c : Closure) (results : List Detection) (s : State) :
    (onDetected chain c results s).playCalls = s.playCalls := by
  unfold onDetected
  split <;> rfl

@[simp]
theorem onDetected_sizedSrcs (chain : Nat) (c : Closure) (results : List Detection) (s : State) :
    (onDetected chain c results s).sizedSrcs = s.sizedSrcs := by
  unfold onDetected
  split <;> rfl

@[simp]
theorem onDetected_lastSizing (chain : Nat) (c : Closure) (results : List Detection) (s : State) :
    (onDetected chain c results s).lastSizing = s.lastSizing := by
  unfold onDetected
  split <;> rfl

@[simp]
theorem onExtracted_videoSrc (chain : Nat) (c : Closure) (faceImages : List Face) (s : State) :
    (onExtracted chain c faceImages s).videoSrc = s.videoSrc := by
  unfold onExtracted
  split <;> rfl

@[simp]
theorem onExtracted_isModelLoaded (chain : Nat) (c : Closure) (faceImages : List Face) (s : State) :
    (onExtracted chain c faceImages s).isModelLoaded = s.isModelLoaded := by
  unfold onExtracted
  split <;> rfl

@[simp]
theorem onExtracted_isVideoPlaying (chain : Nat) (c : Closure) (faceImages : List Face) (s : State) :
    (onExtracted chain c faceImages s).isVideoPlaying = s.isVideoPlaying := by
  unfold onExtracted
  split <;> rfl

@[simp]
theorem onExtracted_videoRef (chain : Nat) (c : Closure) (faceImages : List Face) (s : State) :
    (onExtracted chain c faceImages s).videoRef = s.videoRef := by
  unfold onExtracted
  split <;> rfl

@[simp]
theorem onExtracted_canvasRef (chain : Nat) (c : Closure) (faceImages : List Face) (s : State) :
    (onExtracted chain c faceImages s).canvasRef = s.canvasRef := by
  unfold onExtracted
  split <;> rfl

@[simp]
theorem onExtracted_fabricCanvas (chain : Nat) (c : Closure) (faceImages : List Face) (s : State) :
    (onExtracted chain c faceImages s).fabricCanvas = s.fabricCanvas := by
  unfold onExtracted
  split <;> rfl

@[simp]
theorem onExtracted_nextChain (chain : Nat) (c : Closure) (faceImages : List Face) (s : State) :
    (onExtracted chain c faceImages s).nextChain = s.nextChain := by
  unfold onExtracted
  split <;> rfl

@[simp]
theorem onExtracted_requests (chain : Nat) (c : Closure) (faceImages : List Face) (s : State) :
    (onExtracted chain c faceImages s).requests = s.requests := by
  unfold onExtracted
  split <;> rfl

@[simp]
theorem onExtracted_playCalls (chain : Nat) (c : Closure) (faceImages : List Face) (s : State) :
    (onExtracted chain c faceImages s).playCalls = s.playCalls := by
  unfold onExtracted
  split <;> rfl

@[simp]
theorem onExtracted_sizedSrcs (chain : Nat) (c : Closure) (faceImages : List Face) (s : State) :
    (onExtracted chain c faceImages s).sizedSrcs = s.sizedSrcs := by
  unfold onExtracted
  split <;> rfl

@[simp]
theorem onExtracted_lastSizing (chain : Nat) (c : Closure) (faceImages : List Face) (s : State) :
    (onExtracted chain c faceImages s).lastSizing = s.lastSizing := by
  unfold onExtracted
  split <;> rfl

@[simp]
theorem setCanvasSize_videoSrc (s : State) :
    (setCanvasSize s).videoSrc = s.videoSrc := by
  unfold setCanvasSize
  split <;> rfl

@[simp]
theorem setCanvasSize_isModelLoaded (s : State) :
    (setCanvasSize s).isModelLoaded = s.isModelLoaded := by
  unfold setCanvasSize
  split <;> rfl

@[simp]
theorem setCanvasSize_extractedFaces (s : State) :
    (setCanvasSize s).extractedFaces = s.extractedFaces := by
  unfold setCanvasSize
  split <;> rfl

@[simp]
theorem setCanvasSize_isVideoPlaying (s : State) :
    (setCanvasSize s).isVideoPlaying = s.isVideoPlaying := by
  unfold setCanvasSize
  split <;> rfl

@[simp]
theorem setCanvasSize_videoRef (s : State) :
    (setCanvasSize s).videoRef = s.videoRef := by
  unfold setCanvasSize
  split <;> rfl

@[simp]
theorem setCanvasSize_pending (s : State) :
    (setCanvasSize s).pending = s.pending := by
  unfold setCanvasSize
  split <;> rfl

@[simp]
theorem setCanvasSize_nextChain (s : State) :
    (setCanvasSize s).nextChain = s.nextChain := by
  unfold setCanvasSize
  split <;> rfl

@[simp]
theorem setCanvasSize_requests (s : State) :
    (setCanvasSize s).requests = s.requests := by
  unfold setCanvasSize
  split <;> rfl

@[simp]
theorem setCanvasSize_playCalls (s : State) :
    (setCanvasSize s).playCalls = s.playCalls := by
  unfold setCanvasSize
  split <;> rfl

@[simp]
theorem playbackEffect_videoSrc (s : State) :
    (playbackEffect s).videoSrc = s.videoSrc := by
  unfold playbackEffect
  split <;> rfl

@[simp]
theorem playbackEffect_isModelLoaded (s : State) :
    (playbackEffect s).isModelLoaded = s.isModelLoaded := by
  unfold playbackEffect
  split <;> rfl

@[simp]
theorem playbackEffect_extractedFaces (s : State) :
    (playbackEffect s).extractedFaces = s.extractedFaces := by
  unfold playbackEffect
  split <;> rfl

@[simp]
theorem playbackEffect_isVideoPlaying (s : State) :
    (playbackEffect s).isVideoPlaying = s.isVideoPlaying := by
  unfold playbackEffect
  split <;> rfl

@[simp]
theorem playbackEffect_videoRef (s : State) :
    (playbackEffect s).videoRef = s.videoRef := by
  unfold playbackEffect
  split <;> rfl

@[simp]
theorem playbackEffect_canvasRef (s : State) :
    (playbackEffect s).canvasRef = s.canvasRef := by
  unfold playbackEffect
  split <;> rfl

@[simp]
theorem playbackEffect_fabricCanvas (s : State) :
    (playbackEffect s).fabricCanvas = s.fabricCanvas := by
  unfold playbackEffect
  split <;> rfl

@[simp]
theorem playbackEffect_requests (s : State) :
    (playbackEffect s).requests = s.requests := by
  unfold playbackEffect
  split <;> rfl

@[simp]
theorem playbackEffect_playCalls (s : State) :
    (playbackEffect s).playCalls = s.playCalls := by
  unfold playbackEffect
  split <;> rfl

@[simp]
theorem playbackEffect_sizedSrcs (s : State) :
    (playbackEffect s).sizedSrcs = s.sizedSrcs := by
  unfold playbackEffect
  split <;> rfl

@[simp]
theorem playbackEffect_lastSizing (s : State) :
    (playbackEffect s).lastSizing = s.lastSizing := by
  unfold playbackEffect
  split <;> rfl

theorem step_playingWhenUnpaused (s : State) (e : Event) (h : PlayingWhenUnpaused s) :
    PlayingWhenUnpaused (step s e) := by
  intro v hv hp
  cases hs : s.videoRef with
  | none =>
    have h0 : (step s e).videoRef = none := by
      cases e <;> simp only [step, handleVideoUpload, handlePlay, handlePause, hs] <;>
        (try split) <;> (try split) <;> simp_all
    rw [h0] at hv; cases hv
  | some w =>
    have hw := h w hs
    cases e <;> simp only [step, handleVideoUpload, handlePlay, handlePause, hs] at hv ⊢ <;>
      (try split at hv) <;> (try split at hv) <;> simp_all [loadSrc] <;>
      (try subst hv) <;> (try split) <;> simp_all

theorem foldl_step_invariant (P : State → Prop) (hstep : ∀ s e, P s → P (step s e))
    (es : List Event) (s : State) (h : P s) : P (es.foldl step s) := by
  induction es generalizing s with
  | nil => exact h
  | cons e es ih => exact ih (step s e) (hstep s e h)

theorem run_playingWhenUnpaused (es : List Event) : PlayingWhenUnpaused (run es) :=
  foldl_step_invariant PlayingWhenUnpaused step_playingWhenUnpaused es init (by
    intro v hv hp
    simp [init] at hv
    subst hv
    simp at hp)

theorem onPlay_requests_ne (chain : Nat) (c : Closure) (s : State)
    (h : (onPlay chain c s).requests ≠ s.requests) : guardDefers c s.videoRef = false := by
  cases hg : guardDefers c s.videoRef with
  | false => rfl
  | true => simp [onPlay, hg] at h

theorem guardDefers_false (c : Closure) (videoEl : Option VideoEl)
    (h : guardDefers c videoEl = false) :
    ∃ v, videoEl = some v ∧ v.paused = false ∧ v.ended = false ∧ c.isModelLoaded = true ∧
      2 ≤ v.readyState := by
  cases videoEl with
  | none => simp [guardDefers] at h
  | some v =>
    simp only [guardDefers, Bool.or_eq_false_iff, Bool.not_eq_false', decide_eq_false_iff_not,
      Nat.not_lt] at h
    exact ⟨v, rfl, h.1.1.1, h.1.1.2, h.1.2, h.2⟩

theorem step_requests_ne (s : State) (e : Event) (h : (step s e).requests ≠ s.requests) :
    ∃ v, s.videoRef = some v ∧ v.paused = false := by
  cases e with
  | modelsLoaded => simp [step] at h
  | upload url =>
    simp only [step, handleVideoUpload] at h
    split at h <;> simp at h
  | playClick =>
    simp only [step, handlePlay] at h
    split at h
    · simp at h
    · split at h <;> simp at h
  | pauseClick =>
    simp only [step, handlePause] at h
    split at h
    · simp at h
    · split at h <;> simp at h
  | loadedMetadata vw vh cw ch =>
    simp only [step] at h
    split at h
    · split at h
      · simp [onPlay, guardDefers] at h
      · simp at h
    · simp at h
  | mediaProgress rs ended pause =>
    simp only [step] at h
    split at h
    · split at h <;> simp at h
    · simp at h
  | resize cw ch => simp [step] at h
  | callback i =>
    simp only [step] at h
    split at h
    · obtain ⟨v, hv, hp, -⟩ := guardDefers_false _ _ (onPlay_requests_ne _ _ _ h)
      exact ⟨v, hv, hp⟩
    · obtain ⟨v, hv, hp, -⟩ := guardDefers_false _ _ (onPlay_requests_ne _ _ _ h)
      exact ⟨v, hv, hp⟩
    · simp at h
  | detected i results =>
    simp only [step] at h
    split at h <;> simp at h
  | extracted i faceImages =>
    simp only [step] at h
    split at h <;> simp at h

/-- C3. In every state reachable through the events of the component, an invocation of
`onPlay` that issues a detection request finds `isVideoPlaying` true: both for
`onPlay` called in that state with any closure, and for any event in the course of
which `onPlay` runs. -/
theorem detection_only_while_playing (es : List Event) :
    (∀ chain c, (onPlay chain c (run es)).requests ≠ (run es).requests →
        (run es).isVideoPlaying = true)
    ∧ (∀ e, (step (run es) e).requests ≠ (run es).requests →
        (run es).isVideoPlaying = true) := by
  constructor
  · intro chain c h
    obtain ⟨v, hv, hp, -⟩ := guardDefers_false _ _ (onPlay_requests_ne _ _ _ h)
    exact run_playingWhenUnpaused es v hv hp
  · intro e h
    obtain ⟨v, hv, hp⟩ := step_requests_ne _ _ h
    exact run_playingWhenUnpaused es v hv hp

/-- C3 at work: after model load, upload, metadata, data and a play click, the
animation frame callback issues a request, and the playback state is Playing. -/
theorem detection_only_while_playing_witness :
    (step (run [modelsLoaded, upload 1, loadedMetadata 640 360 320 180,
        mediaProgress 4 false false, playClick]) (callback 1)).requests
      ≠ (run [modelsLoaded, upload 1, loadedMetadata 640 360 320 180,
        mediaProgress 4 false false, playClick]).requests
    ∧ (run [modelsLoaded, upload 1, loadedMetadata 640 360 320 180,
        mediaProgress 4 false false, playClick]).isVideoPlaying = true :=
  ⟨by decide, (detection_only_while_playing _).2 (callback 1) (by decide)⟩

/-! ## The canvas is sized before a draw -/

theorem sized_setCanvasSize (s : State) (v : VideoEl) (hv : s.videoRef = some v)
    (hc : s.canvasRef.isSome = true)
    (hd : ∀ chain c src, Task.detecting chain c src ∈ s.pending → src ∈ s.sizedSrcs) :
    Sized (setCanvasSize s) := by
  obtain ⟨cv, hcv⟩ := Option.isSome_iff_exists.mp hc
  simp only [Sized, setCanvasSize, hv, hcv]
  refine ⟨rfl, ?_, ?_, ?_⟩
  · intro w _ _; simp
  · intro chain c src h; exact List.mem_cons_of_mem _ (hd chain c src h)
  · intro _; exact ⟨rfl, _, _, rfl, rfl⟩

theorem sized_onPlay (chain : Nat) (c : Closure) (s : State) (h : Sized s) :
    Sized (onPlay chain c s) := by
  obtain ⟨h1, h2, h3, h4⟩ := h
  refine ⟨by simpa using h1, by simpa using h2, ?_, by simpa using h4⟩
  intro k c' src hm
  rw [onPlay_sizedSrcs]
  unfold onPlay at hm
  split at hm
  · simp only [List.mem_append, List.mem_singleton] at hm
    rcases hm with hm | hm
    · exact h3 k c' src hm
    · cases hm
  · rename_i hg
    simp only [List.mem_append, List.mem_singleton, Task.detecting.injEq] at hm
    rcases hm with hm | ⟨-, -, rfl⟩
    · exact h3 k c' src hm
    · obtain ⟨v, hv, -, -, -, hr⟩ := guardDefers_false c s.videoRef (by simpa using hg)
      exact h2 v hv (by omega)

theorem sized_erase (s : State) (i : Nat) (h : Sized s) :
    Sized { s with pending := s.pending.eraseIdx i } := by
  obtain ⟨h1, h2, h3, h4⟩ := h
  exact ⟨h1, h2, fun k c src hm => h3 k c src (List.mem_of_mem_eraseIdx hm), h4⟩

theorem sized_onDetected (chain : Nat) (c : Closure) (results : List Detection) (s : State)
    (h : Sized s) : Sized (onDetected chain c results s) := by
  obtain ⟨h1, h2, h3, h4⟩ := h
  unfold onDetected
  split
  · exact ⟨h1, h2, h3, h4⟩
  · refine ⟨h1, h2, ?_, ?_⟩
    · intro k c' src hm
      simp only [List.mem_append, List.mem_singleton] at hm
      rcases hm with hm | hm
      · exact h3 k c' src hm
      · cases hm
    · intro hne
      exact ⟨rfl, (h4 hne).2⟩

theorem sized_onExtracted (chain : Nat) (c : Closure) (faceImages : List Face) (s : State)
    (h : Sized s) : Sized (onExtracted chain c faceImages s) := by
  obtain ⟨h1, h2, h3, h4⟩ := h
  unfold onExtracted
  split
  · refine ⟨h1, h2, ?_, h4⟩
    intro k c' src hm
    simp only [List.mem_append, List.mem_singleton] at hm
    rcases hm with hm | hm
    · exact h3 k c' src hm
    · cases hm
  · exact ⟨h1, h2, h3, h4⟩

theorem sized_playbackEffect (s : State) (h : Sized s) : Sized (playbackEffect s) := by
  obtain ⟨h1, h2, h3, h4⟩ := h
  unfold playbackEffect
  split
  · refine ⟨h1, h2, ?_, h4⟩
    intro k c' src hm
    simp only [List.mem_append, List.mem_singleton] at hm
    rcases hm with hm | hm
    · exact h3 k c' src hm
    · cases hm
  · exact ⟨h1, h2, h3, h4⟩

theorem step_sized (s : State) (e : Event) (h : Sized s) : Sized (step s e) := by
  cases e with
  | modelsLoaded => exact h
  | upload url =>
    simp only [step, handleVideoUpload]
    split
    · exact h
    · apply sized_playbackEffect
      obtain ⟨h1, h2, h3, h4⟩ := h
      refine ⟨h1, ?_, h3, h4⟩
      intro v hv hr
      cases hs : s.videoRef with
      | none => simp [hs] at hv
      | some w =>
        simp only [hs, Option.map_some', Option.some.injEq] at hv
        subst hv
        simp [loadSrc] at hr
  | playClick =>
    simp only [step, handlePlay]
    obtain ⟨h1, h2, h3, h4⟩ := h
    split
    · exact ⟨h1, h2, h3, h4⟩
    · rename_i v hv
      have hs : Sized { s with videoRef := some { v with paused := false },
                               playCalls := s.playCalls + 1, isVideoPlaying := true } :=
        ⟨h1, fun w hw hr => (by cases hw; exact h2 v hv hr), h3, h4⟩
      split
      · exact hs
      · exact sized_playbackEffect _ hs
  | pauseClick =>
    simp only [step, handlePause]
    obtain ⟨h1, h2, h3, h4⟩ := h
    split
    · exact ⟨h1, h2, h3, h4⟩
    · rename_i v hv
      have hs : Sized { s with videoRef := some { v with paused := true },
                               isVideoPlaying := false } :=
        ⟨h1, fun w hw hr => (by cases hw; exact h2 v hv hr), h3, h4⟩
      split
      · exact sized_playbackEffect _ hs
      · exact hs
  | loadedMetadata vw vh cw ch =>
    simp only [step]
    split
    · split
      · rename_i v hsrc hv hr
        apply sized_setCanvasSize _ _ (by rw [onPlay_videoRef])
        · rw [onPlay_canvasRef]; exact h.1
        · intro k c src hm
          rw [onPlay_sizedSrcs]
          simp [onPlay, guardDefers] at hm
          exact h.2.2.1 k c src hm
      · exact h
    · exact h
  | mediaProgress rs ended pause =>
    simp only [step]
    obtain ⟨h1, h2, h3, h4⟩ := h
    split
    · rename_i v hv
      split
      · rename_i hr
        exact ⟨h1, fun w hw _ => (by cases hw; exact h2 v hv hr.1), h3, h4⟩
      · exact ⟨h1, h2, h3, h4⟩
    · exact ⟨h1, h2, h3, h4⟩
  | resize cw ch =>
    simp only [step]
    cases hs : s.videoRef with
    | none =>
      have hs1 : Sized { s with videoRef := (none : Option VideoEl) } :=
        ⟨h.1, fun v hv _ => (by cases hv), h.2.2.1, h.2.2.2⟩
      simpa [setCanvasSize] using hs1
    | some v =>
      exact sized_setCanvasSize _ _ rfl h.1 h.2.2.1
  | callback i =>
    simp only [step]
    split
    · exact sized_onPlay _ _ _ (sized_erase s i h)
    · exact sized_onPlay _ _ _ (sized_erase s i h)
    · exact h
  | detected i results =>
    simp only [step]
    split
    · exact sized_onDetected _ _ _ _ (sized_erase s i h)
    · exact h
  | extracted i faceImages =>
    simp only [step]
    split
    · exact sized_onExtracted _ _ _ _ (sized_erase s i h)
    · exact h

theorem run_sized (es : List Event) : Sized (run es) :=
  foldl_step_invariant Sized step_sized es init (by
    refine ⟨rfl, ?_, ?_, ?_⟩
    · intro v hv hr
      simp [init] at hv
      subst hv
      simp at hr
    · intro k c src hm; simp [init] at hm
    · intro hne; simp [init] at hne)

/-- C10, amended. In every reachable state, whenever a detection is awaited (so that
`drawDetections` runs when it resolves), `setCanvasSize` has already run with both
elements present for the video that was current when the request was made, hence
`fabricCanvas.current` is set and the canvas width and height are the
`clientWidth` and `clientHeight` read by the latest sizing. -/
theorem canvas_sized_before_draw (es : List Event) (i chain : Nat) (c : Closure)
    (src : Option Url) (h : (run es).pending[i]? = some (Task.detecting chain c src)) :
    src ∈ (run es).sizedSrcs ∧ (run es).fabricCanvas.isSome = true ∧
      ∃ w h, (run es).lastSizing = some (w, h) ∧
        (run es).canvasRef = some { width := w, height := h } := by
  obtain ⟨-, -, h3, h4⟩ := run_sized es
  have hm : src ∈ (run es).sizedSrcs := h3 chain c src (List.getElem?_mem h)
  exact ⟨hm, h4 (List.ne_nil_of_mem hm)⟩

/-- The amended C10 at the first detection of a played video. -/
theorem canvas_sized_before_draw_witness :
    some 1 ∈ (run [modelsLoaded, upload 1, loadedMetadata 640 360 320 180,
        mediaProgress 4 false false, playClick, callback 1]).sizedSrcs ∧
      (run [modelsLoaded, upload 1, loadedMetadata 640 360 320 180,
        mediaProgress 4 false false, playClick, callback 1]).fabricCanvas.isSome = true ∧
      ∃ w h, (run [modelsLoaded, upload 1, loadedMetadata 640 360 320 180,
          mediaProgress 4 false false, playClick, callback 1]).lastSizing = some (w, h) ∧
        (run [modelsLoaded, upload 1, loadedMetadata 640 360 320 180,
          mediaProgress 4 false false, playClick, callback 1]).canvasRef
            = some { width := w, height := h } :=
  canvas_sized_before_draw _ 1 1 { isModelLoaded := true, isVideoPlaying := true } (some 1)
    (by decide)

/-- C10 as stated fails: a second upload while a detection is awaited makes video 2
current; `drawDetections` then runs (and redraws the overlay) although
`setCanvasSize` has run for video 1 only. -/
theorem draw_for_unsized_video :
    (run [modelsLoaded, upload 1, loadedMetadata 640 360 320 180, mediaProgress 4 false false,
        playClick, callback 1, upload 2]).pending[1]?
      = some (Task.detecting 1 { isModelLoaded := true, isVideoPlaying := true } (some 1))
    ∧ (run [modelsLoaded, upload 1, loadedMetadata 640 360 320 180, mediaProgress 4 false false,
        playClick, callback 1, upload 2]).videoSrc = some 2
    ∧ (run [modelsLoaded, upload 1, loadedMetadata 640 360 320 180, mediaProgress 4 false false,
        playClick, callback 1, upload 2]).sizedSrcs = [some 1]
    ∧ (run [modelsLoaded, upload 1, loadedMetadata 640 360 320 180, mediaProgress 4 false false,
        playClick, callback 1, upload 2, detected 1 []]).fabricCanvas = some []
    ∧ (run [modelsLoaded, upload 1, loadedMetadata 640 360 320 180, mediaProgress 4 false false,
        playClick, callback 1, upload 2, detected 1 []]).sizedSrcs = [some 1] := by
  decide

theorem step_metadataNonzero (s : State) (e : Event)
    (he : ∀ vw vh cw ch, e = loadedMetadata vw vh cw ch → vw ≠ 0 ∧ vh ≠ 0)
    (h : MetadataNonzero s) : MetadataNonzero (step s e) := by
  intro v hv hr
  cases hs : s.videoRef with
  | none =>
    have h0 : (step s e).videoRef = none := by
      cases e <;> simp only [step, handleVideoUpload, handlePlay, handlePause, hs] <;>
        (try split) <;> (try split) <;> simp_all
    rw [h0] at hv; cases hv
  | some w =>
    have hw := h w hs
    cases e <;> simp only [step, handleVideoUpload, handlePlay, handlePause, hs] at hv <;>
      (try split at hv) <;> (try split at hv) <;> simp_all [loadSrc] <;>
      (try subst hv) <;> simp_all

theorem foldl_metadataNonzero (es : List Event) (s : State)
    (hmeta : ∀ vw vh cw ch, loadedMetadata vw vh cw ch ∈ es → vw ≠ 0 ∧ vh ≠ 0)
    (h : MetadataNonzero s) : MetadataNonzero (es.foldl step s) := by
  induction es generalizing s with
  | nil => exact h
  | cons e es ih =>
    refine ih (step s e) (fun vw vh cw ch hm => hmeta vw vh cw ch (List.mem_cons_of_mem _ hm))
      (step_metadataNonzero s e (fun vw vh cw ch heq => hmeta vw vh cw ch ?_) h)
    rw [heq]; exact List.mem_cons_self _ _

theorem metadataNonzero_init : MetadataNonzero init := by
  intro u hu hr0
  simp [init] at hu
  subst hu
  simp at hr0

/-- C8, amended. In every reachable state in which each `loadedmetadata` reported nonzero
intrinsic dimensions, whenever an awaited detection resolves and `drawDetections`
computes the scale factors for a video element that still has its metadata
(`readyState` at least 1), `videoWidth` and `videoHeight` are both nonzero:
neither division is by zero, and the overlay afterwards holds, for each result,
the rectangle with the finite coordinates `x * (clientWidth / videoWidth)`,
`y * (clientHeight / videoHeight)`, `width * (clientWidth / videoWidth)` and
`height * (clientHeight / videoHeight)`. -/
theorem scale_defined_at_draw (es : List Event)
    (hmeta : ∀ vw vh cw ch, loadedMetadata vw vh cw ch ∈ es → vw ≠ 0 ∧ vh ≠ 0)
    (i chain : Nat) (c : Closure) (src : Option Url) (results : List Detection) (v : VideoEl)
    (ht : (run es).pending[i]? = some (Task.detecting chain c src))
    (hv : (run es).videoRef = some v) (hr : 1 ≤ v.readyState) :
    v.videoWidth ≠ 0 ∧ v.videoHeight ≠ 0
    ∧ scaleWidth v = some ((v.clientWidth : ℚ) / (v.videoWidth : ℚ))
    ∧ scaleHeight v = some ((v.clientHeight : ℚ) / (v.videoHeight : ℚ))
    ∧ (step (run es) (detected i results)).fabricCanvas
        = some (results.map (fun d =>
            { left := some (d.box.x * ((v.clientWidth : ℚ) / (v.videoWidth : ℚ)))
              top := some (d.box.y * ((v.clientHeight : ℚ) / (v.videoHeight : ℚ)))
              width := some (d.box.width * ((v.clientWidth : ℚ) / (v.videoWidth : ℚ)))
              height := some (d.box.height * ((v.clientHeight : ℚ) / (v.videoHeight : ℚ)))
              stroke := "red"
              strokeWidth := 2
              fill := "transparent" })) := by
  obtain ⟨h1, h2⟩ := foldl_metadataNonzero es init hmeta metadataNonzero_init v hv hr
  obtain ⟨-, -, h3, h4⟩ := run_sized es
  have hm : src ∈ (run es).sizedSrcs := h3 chain c src (List.getElem?_mem ht)
  obtain ⟨prior, hp⟩ := Option.isSome_iff_exists.mp (h4 (List.ne_nil_of_mem hm)).1
  refine ⟨h1, h2, by simp [scaleWidth, jsDiv, h1], by simp [scaleHeight, jsDiv, h2], ?_⟩
  have hdraw : drawDetections (run es).videoRef (run es).fabricCanvas results
      = some (results.map (fun d =>
          { left := some (d.box.x * ((v.clientWidth : ℚ) / (v.videoWidth : ℚ)))
            top := some (d.box.y * ((v.clientHeight : ℚ) / (v.videoHeight : ℚ)))
            width := some (d.box.width * ((v.clientWidth : ℚ) / (v.videoWidth : ℚ)))
            height := some (d.box.height * ((v.clientHeight : ℚ) / (v.videoHeight : ℚ)))
            stroke := "red"
            strokeWidth := 2
            fill := "transparent" })) := by
    rw [hv, hp, drawDetections_eq_map]
    simp [newRect, scaleWidth, scaleHeight, jsDiv, jsMul, h1, h2]
  simp only [step, ht, onDetected, hdraw]

/-- The amended C8 for a 640x360 video shown at 320x180: the detection of the box
`{x: 100, y: 50, width: 40, height: 40}` resolves and the overlay holds the
rectangle `{left: 50, top: 25, width: 20, height: 20}`. -/
theorem scale_defined_at_draw_witness :
    (step (run [modelsLoaded, upload 1, loadedMetadata 640 360 320 180,
        mediaProgress 4 false false, playClick, callback 1])
      (detected 1 [{ box := { x := 100, y := 50, width := 40, height := 40 } }])).fabricCanvas
      = some [{ left := some 50, top := some 25, width := some 20, height := some 20,
                stroke := "red", strokeWidth := 2, fill := "transparent" }] := by
  have h := (scale_defined_at_draw
    [modelsLoaded, upload 1, loadedMetadata 640 360 320 180, mediaProgress 4 false false,
      playClick, callback 1]
    (by
      intro vw vh cw ch hm
      simp at hm
      obtain ⟨rfl, rfl, -, -⟩ := hm
      exact ⟨by decide, by decide⟩)
    1 1 { isModelLoaded := true, isVideoPlaying := true } (some 1)
    [{ box := { x := 100, y := 50, width := 40, height := 40 } }]
    { paused := false, ended := false, readyState := 4, clientWidth := 320,
      clientHeight := 180, videoWidth := 640, videoHeight := 360 }
    (by decide) (by decide) (by decide)).2.2.2.2
  rw [h]
  norm_num

/-- C8 as stated fails, in two ways.  A resource that reports intrinsic size 0x0 (no
video track) reaches `readyState` 4 and passes the guard; when its detection
resolves, `drawDetections` divides by zero and draws a rectangle whose coordinates
are not finite.  And with a 640x360 video, an upload while the detection is
awaited resets the element; when the detection resolves, `drawDetections` again
divides by `videoWidth` 0. -/
theorem draw_divides_by_zero :
    (run [modelsLoaded, upload 1, loadedMetadata 0 0 300 150, mediaProgress 4 false false,
        playClick]).videoRef
      = some { paused := false, ended := false, readyState := 4, clientWidth := 300,
               clientHeight := 150, videoWidth := 0, videoHeight := 0 }
    ∧ guardDefers { isModelLoaded := true, isVideoPlaying := true }
        (run [modelsLoaded, upload 1, loadedMetadata 0 0 300 150, mediaProgress 4 false false,
          playClick]).videoRef = false
    ∧ (run [modelsLoaded, upload 1, loadedMetadata 0 0 300 150, mediaProgress 4 false false,
        playClick, callback 1,
        detected 1 [{ box := { x := 100, y := 50, width := 40, height := 40 } }]]).fabricCanvas
      = some [{ left := none, top := none, width := none, height := none,
                stroke := "red", strokeWidth := 2, fill := "transparent" }]
    ∧ (run [modelsLoaded, upload 1, loadedMetadata 640 360 320 180,
        mediaProgress 4 false false, playClick, callback 1, upload 2]).videoRef
      = some { paused := true, ended := false, readyState := 0, clientWidth := 320,
               clientHeight := 180, videoWidth := 0, videoHeight := 0 }
    ∧ (run [modelsLoaded, upload 1, loadedMetadata 640 360 320 180,
        mediaProgress 4 false false, playClick, callback 1, upload 2,
        detected 1 [{ box := { x := 100, y := 50, width := 40, height := 40 } }]]).fabricCanvas
      = some [{ left := none, top := none, width := none, height := none,
                stroke := "red", strokeWidth := 2, fill := "transparent" }] := by
  refine ⟨by decide, by decide, ?_, by decide, ?_⟩
  · simp [run, step, init, handleVideoUpload, handlePlay, playbackEffect, loadSrc, onPlay,
      guardDefers, setCanvasSize, currentClosure, onDetected, drawDetections, scaleWidth,
      scaleHeight, jsDiv, jsMul, newRect]
  · simp [run, step, init, handleVideoUpload, handlePlay, playbackEffect, loadSrc, onPlay,
      guardDefers, setCanvasSize, currentClosure, onDetected, drawDetections, scaleWidth,
      scaleHeight, jsDiv, jsMul, newRect]

/-! ## Loop chains across pause and model load -/

/-- C4, the code at the failing input: the chain started by the play click (chain 1)
awaits a detection when the pause click comes.  When that step completes, with
`isVideoPlaying` false, `if (isVideoPlaying)` reads the value of the closure and
the chain has an animation frame callback scheduled; that callback, the video
paused, schedules a retry timer; and after the next play click chain 1 issues
another detection request. -/
theorem chain_survives_pause :
    (run [modelsLoaded, upload 1, loadedMetadata 640 360 320 180, mediaProgress 4 false false,
        playClick, callback 1, pauseClick]).pending[1]?
      = some (Task.detecting 1 { isModelLoaded := true, isVideoPlaying := true } (some 1))
    ∧ (run [modelsLoaded, upload 1, loadedMetadata 640 360 320 180, mediaProgress 4 false false,
        playClick, callback 1, pauseClick, detected 1 [], extracted 1 []]).isVideoPlaying = false
    ∧ (run [modelsLoaded, upload 1, loadedMetadata 640 360 320 180, mediaProgress 4 false false,
        playClick, callback 1, pauseClick, detected 1 [], extracted 1 []]).pending[1]?
      = some (Task.animationFrame 1 { isModelLoaded := true, isVideoPlaying := true })
    ∧ (run [modelsLoaded, upload 1, loadedMetadata 640 360 320 180, mediaProgress 4 false false,
        playClick, callback 1, pauseClick, detected 1 [], extracted 1 [], callback 1]).pending[1]?
      = some (Task.timeout 1 { isModelLoaded := true, isVideoPlaying := true } 100)
    ∧ (run [modelsLoaded, upload 1, loadedMetadata 640 360 320 180, mediaProgress 4 false false,
        playClick, callback 1, pauseClick, detected 1 [], extracted 1 [], callback 1,
        playClick, callback 1]).requests = [1, 1] := by
  decide

theorem staleRetries_callback (swapped : Bool) (i : Nat) :
    ∃ swapped1, step (staleRetries swapped) (callback i) = staleRetries swapped1 := by
  rcases i with _ | _ | i
  · cases swapped
    · exact ⟨true, by decide⟩
    · exact ⟨false, by decide⟩
  · cases swapped
    · exact ⟨false, by decide⟩
    · exact ⟨true, by decide⟩
  · refine ⟨swapped, ?_⟩
    cases swapped <;> simp [step, staleRetries]

theorem staleRetries_callbacks (fired : List Nat) (swapped : Bool) :
    ∃ swapped1, (fired.map callback).foldl step (staleRetries swapped) = staleRetries swapped1 := by
  induction fired generalizing swapped with
  | nil => exact ⟨swapped, rfl⟩
  | cons i fired ih =>
    obtain ⟨b, hb⟩ := staleRetries_callback swapped i
    simp only [List.map_cons, List.foldl_cons, hb]
    exact ih b

/-- C6, the code at the failing input: play is clicked on a loaded video before the model
has loaded, then the model loads.  However many retry callbacks run afterwards,
in any order, no detection request is ever issued, although the model is
loaded and the video plays with data; the chain of the play click still polls. -/
theorem play_before_model_never_detects (fired : List Nat) :
    (run ([upload 1, loadedMetadata 640 360 320 180, mediaProgress 4 false false, playClick,
        callback 1, modelsLoaded] ++ fired.map callback)).requests = []
    ∧ (run ([upload 1, loadedMetadata 640 360 320 180, mediaProgress 4 false false, playClick,
        callback 1, modelsLoaded] ++ fired.map callback)).isModelLoaded = true
    ∧ (run ([upload 1, loadedMetadata 640 360 320 180, mediaProgress 4 false false, playClick,
        callback 1, modelsLoaded] ++ fired.map callback)).videoRef
      = some { paused := false, ended := false, readyState := 4, clientWidth := 320,
               clientHeight := 180, videoWidth := 640, videoHeight := 360 }
    ∧ Task.timeout 1 { isModelLoaded := false, isVideoPlaying := true } 100
        ∈ (run ([upload 1, loadedMetadata 640 360 320 180, mediaProgress 4 false false,
            playClick, callback 1, modelsLoaded] ++ fired.map callback)).pending := by
  have h0 : run [upload 1, loadedMetadata 640 360 320 180, mediaProgress 4 false false,
      playClick, callback 1, modelsLoaded] = staleRetries false := by decide
  obtain ⟨b, hb⟩ := staleRetries_callbacks fired false
  have hrun : run ([upload 1, loadedMetadata 640 360 320 180, mediaProgress 4 false false,
      playClick, callback 1, modelsLoaded] ++ fired.map callback) = staleRetries b := by
    unfold run at h0 ⊢
    rw [List.foldl_append, h0, hb]
  rw [hrun]
  cases b <;> decide

end FaceTracking
